import Mathlib

/-!
Verification of the dynamic to-do list client (src/script.js).

The script is a browser to-do list backed by a remote document store.
We embed its core behaviour shallowly: the DOM/list state becomes an
explicit record, the asynchronous store calls become parameters telling
whether the awaited operation resolves, and each handler from the source
becomes a pure Lean function from state to state plus the requests it
issues to the store.
-/

namespace TodoList

/-- A task document: the store-assigned document id together with the two
fields written by addTask (src/script.js lines 103-106): the trimmed text
and the `Date.now()` creation timestamp. -/
structure Task where
  id : String
  text : String
  createdAt : Int
deriving DecidableEq

/-- Controller states from the spec's state machine, realised by the source's
callbacks: `connecting` once the snapshot listener is registered, `ready`
after a successful snapshot callback, `error` after the error callback. -/
inductive CtrlState
  | uninitialized
  | connecting
  | ready
  | error
deriving DecidableEq

/-- The client state: the rendered task list (the children of the
`task-list` element, lines 147-150), the contents of the `task-input`
field, whether `db` and `userId` are both set (the guard at lines 95
and 123), the controller state, and the last message shown by
`showMessage`. -/
structure AppState where
  view : List Task
  input : String
  dbReady : Bool
  ctrl : CtrlState
  message : Option String
deriving DecidableEq

/-- Comparison used by the snapshot callback's sort (line 144):
`(a, b) => a.createdAt - b.createdAt`, i.e. ascending createdAt. -/
def taskLe (a b : Task) : Prop := a.createdAt ≤ b.createdAt

instance : DecidableRel taskLe := fun a b => Int.decLe a.createdAt b.createdAt

instance : IsTotal Task taskLe := ⟨fun a b => Int.le_total a.createdAt b.createdAt⟩

instance : IsTrans Task taskLe := ⟨fun _ _ _ hab hbc => le_trans hab hbc⟩

/-- `tasks.sort((a, b) => a.createdAt - b.createdAt)` (line 144): JavaScript's
`Array.prototype.sort` is stable, modelled by the stable `insertionSort`. -/
def sortTasks (ts : List Task) : List Task := List.insertionSort taskLe ts

/-- The snapshot success callback (lines 133-152): clears the current list,
rebuilds the task array from the snapshot's documents, sorts ascending by
createdAt, renders the result, and shows the loaded-count message. A
successful callback is what the spec calls reaching `Ready`. -/
def onStoreUpdate (s : AppState) (snapshot : List Task) : AppState :=
  let tasks := sortTasks snapshot
  { s with
      view := tasks
      ctrl := CtrlState.ready
      message := some ("Loaded " ++ toString tasks.length ++ " tasks from the database.") }

/-- The snapshot error callback (lines 153-156): reports the failure and
leaves the rendered list untouched; the spec calls this the `Error` state. -/
def onStoreError (s : AppState) : AppState :=
  { s with
      ctrl := CtrlState.error
      message := some "Failed to load tasks in real-time." }

/-- setupRealtimeListener (lines 122-157): skipped entirely when `db` or
`userId` is unavailable, otherwise registers the onSnapshot subscription.
The boolean reports whether a subscription was issued. -/
def setupRealtimeListener (s : AppState) : AppState × Bool :=
  if s.dbReady then ({ s with ctrl := CtrlState.connecting }, true) else (s, false)

/-- `taskInput.value.trim()` (line 88): JavaScript's `String.prototype.trim`
strips whitespace from both ends of the string. -/
def jsTrim (s : String) : String :=
  String.mk ((s.data.dropWhile Char.isWhitespace).reverse.dropWhile Char.isWhitespace).reverse

/-- The document body passed to `addDoc` (lines 103-106). -/
structure CreatePayload where
  text : String
  createdAt : Int
deriving DecidableEq

/-- How an addTask call ends, matching the spec's error taxonomy. -/
inductive AddOutcome
  | validationError
  | storeUnavailable
  | created
  | operationFailed
deriving DecidableEq

/-- Result of an addTask call: the state after the handler returns, the
outcome, and the create requests issued to the store during the call. -/
structure AddResult where
  state : AppState
  outcome : AddOutcome
  createRequests : List CreatePayload

/-- addTask (lines 87-116): trims the input; empty text shows the
validation message and returns before any store access; a missing `db` or
`userId` shows the not-ready message and returns; otherwise exactly one
`addDoc` carrying the trimmed text and `Date.now()` is awaited. The input
field is cleared only after the await succeeds; if `addDoc` rejects, the
catch block shows the failure message and the input is left as typed.
`storeOk` tells whether the awaited `addDoc` resolves; `now` is the value
of `Date.now()` at the call. -/
def addTask (s : AppState) (storeOk : Bool) (now : Int) : AddResult :=
  let taskText := jsTrim s.input
  if taskText = "" then
    ⟨{ s with message := some "Please enter a task." }, AddOutcome.validationError, []⟩
  else if !s.dbReady then
    ⟨{ s with message := some "Database is not ready. Please wait." },
      AddOutcome.storeUnavailable, []⟩
  else if storeOk then
    ⟨{ s with input := "" }, AddOutcome.created, [⟨taskText, now⟩]⟩
  else
    ⟨{ s with message := some "Failed to add task. Check console for details." },
      AddOutcome.operationFailed, [⟨taskText, now⟩]⟩

/-- How a remove-button click ends. -/
inductive RemoveOutcome
  | storeUnavailable
  | removed
  | operationFailed
deriving DecidableEq

/-- Result of a remove-button click: the state after the handler returns,
the outcome, and the document ids of the delete requests issued. -/
structure RemoveResult where
  state : AppState
  outcome : RemoveOutcome
  deleteRequests : List String

/-- The remove button handler installed by createTaskElement
(lines 64-78): a missing `db` or `userId` shows the not-ready message and
returns before any store access; otherwise exactly one `deleteDoc` for the
task's document id is awaited, with the catch block showing the failure
message if it rejects. The handler never touches the rendered list itself;
the snapshot listener performs the removal. -/
def removeTask (s : AppState) (taskId : String) (storeOk : Bool) : RemoveResult :=
  if !s.dbReady then
    ⟨{ s with message := some "Database is not ready. Please wait." },
      RemoveOutcome.storeUnavailable, []⟩
  else if storeOk then
    ⟨s, RemoveOutcome.removed, [taskId]⟩
  else
    ⟨{ s with message := some "Failed to remove task. Check console for details." },
      RemoveOutcome.operationFailed, [taskId]⟩

/-- Membership in the create requests of an addTask call determines the
payload: it carries the trimmed input text (necessarily non-empty) and the
`Date.now()` value of the call. -/
lemma mem_addTask_createRequests (s : AppState) (ok : Bool) (t : Int) (p : CreatePayload)
    (hp : p ∈ (addTask s ok t).createRequests) :
    p.text = jsTrim s.input ∧ p.createdAt = t ∧ jsTrim s.input ≠ "" := by
  by_cases he : jsTrim s.input = "" <;> cases hdb : s.dbReady <;> cases ok <;>
    simp [addTask, he, hdb] at hp <;> simp [he, hp]

/-- C1: every snapshot delivered by the store makes the handler replace the
view wholesale with exactly the snapshot's tasks sorted ascending by
createdAt; a snapshot with createdAt values [5,1,3] yields the view ordered
[1,3,5]; and after consecutive snapshots [A,B] then [A] the view contains
only A, with no leftover reference to B. -/
theorem onStoreUpdate_replaces_view_sorted :
    (∀ (s : AppState) (snapshot : List Task),
        (onStoreUpdate s snapshot).view.Perm snapshot ∧
        List.Sorted taskLe (onStoreUpdate s snapshot).view) ∧
    (∀ s : AppState,
        ((onStoreUpdate s
            [⟨"a", "x", 5⟩, ⟨"b", "y", 1⟩, ⟨"c", "z", 3⟩]).view.map Task.createdAt)
          = [1, 3, 5]) ∧
    (∀ (s : AppState) (A B : Task),
        (onStoreUpdate (onStoreUpdate s [A, B]) [A]).view = [A]) := by
  refine ⟨fun s snapshot => ⟨?_, ?_⟩, fun s => ?_, fun s A B => ?_⟩
  · exact List.perm_insertionSort taskLe snapshot
  · exact List.sorted_insertionSort taskLe snapshot
  · rfl
  · rfl

/-- C2: for every input text that trims to empty, addTask fails with
ValidationError, issues no create request, and leaves the view unchanged. -/
theorem addTask_empty_input_validationError (s : AppState) (storeOk : Bool) (now : Int)
    (h : jsTrim s.input = "") :
    (addTask s storeOk now).outcome = AddOutcome.validationError ∧
    (addTask s storeOk now).createRequests = [] ∧
    (addTask s storeOk now).state.view = s.view := by
  simp [addTask, h]

/-- Witness for C2 at the concrete whitespace-only input. -/
theorem addTask_empty_input_validationError_witness :
    (addTask ⟨[], "   ", true, CtrlState.ready, none⟩ true 0).outcome
        = AddOutcome.validationError ∧
    (addTask ⟨[], "   ", true, CtrlState.ready, none⟩ true 0).createRequests = [] ∧
    (addTask ⟨[], "   ", true, CtrlState.ready, none⟩ true 0).state.view
        = (⟨[], "   ", true, CtrlState.ready, none⟩ : AppState).view :=
  addTask_empty_input_validationError ⟨[], "   ", true, CtrlState.ready, none⟩ true 0
    (by decide)

/-- C3: for every input text that is non-empty after trimming (with the
store available), addTask forwards exactly one create request carrying that
text and never mutates the view directly. -/
theorem addTask_nonempty_forwards_one_create (s : AppState) (storeOk : Bool) (now : Int)
    (h : jsTrim s.input ≠ "") (hdb : s.dbReady = true) :
    (addTask s storeOk now).createRequests.map CreatePayload.text = [jsTrim s.input] ∧
    (addTask s storeOk now).state.view = s.view := by
  cases storeOk <;> simp [addTask, h, hdb]

/-- Witness for C3 at a concrete non-empty input. -/
theorem addTask_nonempty_forwards_one_create_witness :
    (addTask ⟨[], " buy milk ", true, CtrlState.ready, none⟩ true 7).createRequests.map
        CreatePayload.text = [jsTrim " buy milk "] ∧
    (addTask ⟨[], " buy milk ", true, CtrlState.ready, none⟩ true 7).state.view
        = (⟨[], " buy milk ", true, CtrlState.ready, none⟩ : AppState).view :=
  addTask_nonempty_forwards_one_create ⟨[], " buy milk ", true, CtrlState.ready, none⟩ true 7
    (by decide) rfl

/-- C4: when the store operation of an addTask or removeTask call fails, the
error (StoreUnavailable or OperationFailed) is surfaced as the outcome and
the task-list view after the failed call equals the view before it. -/
theorem storeFailure_error_surfaced_view_unchanged (s : AppState) (taskId : String)
    (now : Int) (h : jsTrim s.input ≠ "") :
    ((addTask s false now).outcome = AddOutcome.operationFailed ∨
      (addTask s false now).outcome = AddOutcome.storeUnavailable) ∧
    (addTask s false now).state.view = s.view ∧
    ((removeTask s taskId false).outcome = RemoveOutcome.operationFailed ∨
      (removeTask s taskId false).outcome = RemoveOutcome.storeUnavailable) ∧
    (removeTask s taskId false).state.view = s.view := by
  cases hdb : s.dbReady <;> simp [addTask, removeTask, h, hdb]

/-- Witness for C4 at a concrete state with a rejected store operation. -/
theorem storeFailure_error_surfaced_view_unchanged_witness :
    ((addTask ⟨[], "milk", true, CtrlState.ready, none⟩ false 3).outcome
        = AddOutcome.operationFailed ∨
      (addTask ⟨[], "milk", true, CtrlState.ready, none⟩ false 3).outcome
        = AddOutcome.storeUnavailable) ∧
    (addTask ⟨[], "milk", true, CtrlState.ready, none⟩ false 3).state.view
        = (⟨[], "milk", true, CtrlState.ready, none⟩ : AppState).view ∧
    ((removeTask ⟨[], "milk", true, CtrlState.ready, none⟩ "id1" false).outcome
        = RemoveOutcome.operationFailed ∨
      (removeTask ⟨[], "milk", true, CtrlState.ready, none⟩ "id1" false).outcome
        = RemoveOutcome.storeUnavailable) ∧
    (removeTask ⟨[], "milk", true, CtrlState.ready, none⟩ "id1" false).state.view
        = (⟨[], "milk", true, CtrlState.ready, none⟩ : AppState).view :=
  storeFailure_error_surfaced_view_unchanged ⟨[], "milk", true, CtrlState.ready, none⟩
    "id1" 3 (by decide)

/-- C5: for every id, even one absent from the store's current collection,
removeTask (with the store available) issues exactly one delete request for
that id, and it fails with OperationFailed if and only if the store itself
rejects the delete. -/
theorem removeTask_always_deletes_iff_store_rejects (s : AppState) (taskId : String)
    (storeOk : Bool) (store : List Task) (hdb : s.dbReady = true)
    (habsent : taskId ∉ store.map Task.id) :
    (removeTask s taskId storeOk).deleteRequests = [taskId] ∧
    ((removeTask s taskId storeOk).outcome = RemoveOutcome.operationFailed
      ↔ storeOk = false) := by
  cases storeOk <;> simp [removeTask, hdb]

/-- Witness for C5: deleting an id not present in an empty store collection. -/
theorem removeTask_always_deletes_iff_store_rejects_witness :
    (removeTask ⟨[], "", true, CtrlState.ready, none⟩ "ghost" false).deleteRequests
        = ["ghost"] ∧
    ((removeTask ⟨[], "", true, CtrlState.ready, none⟩ "ghost" false).outcome
        = RemoveOutcome.operationFailed ↔ false = false) :=
  removeTask_always_deletes_iff_store_rejects ⟨[], "", true, CtrlState.ready, none⟩
    "ghost" false [] rfl (by simp)

/-- C6: before an authenticated user identity is available (db/userId not
ready), no store operation is performed: addTask issues no create request
(surfacing StoreUnavailable whenever the text passes validation), removeTask
issues no delete request and surfaces StoreUnavailable, and the listener
setup issues no subscription. -/
theorem preAuth_no_store_operations (s : AppState) (taskId : String) (storeOk : Bool)
    (now : Int) (h : s.dbReady = false) :
    (addTask s storeOk now).createRequests = [] ∧
    (jsTrim s.input ≠ "" → (addTask s storeOk now).outcome = AddOutcome.storeUnavailable) ∧
    (removeTask s taskId storeOk).deleteRequests = [] ∧
    (removeTask s taskId storeOk).outcome = RemoveOutcome.storeUnavailable ∧
    (setupRealtimeListener s).2 = false := by
  by_cases he : jsTrim s.input = "" <;>
    simp [addTask, removeTask, setupRealtimeListener, h, he]

/-- Witness for C6 at a concrete unauthenticated state. -/
theorem preAuth_no_store_operations_witness :
    (addTask ⟨[], "milk", false, CtrlState.uninitialized, none⟩ true 1).createRequests = [] ∧
    (jsTrim "milk" ≠ "" →
      (addTask ⟨[], "milk", false, CtrlState.uninitialized, none⟩ true 1).outcome
        = AddOutcome.storeUnavailable) ∧
    (removeTask ⟨[], "milk", false, CtrlState.uninitialized, none⟩ "id1" true).deleteRequests
        = [] ∧
    (removeTask ⟨[], "milk", false, CtrlState.uninitialized, none⟩ "id1" true).outcome
        = RemoveOutcome.storeUnavailable ∧
    (setupRealtimeListener ⟨[], "milk", false, CtrlState.uninitialized, none⟩).2 = false :=
  preAuth_no_store_operations ⟨[], "milk", false, CtrlState.uninitialized, none⟩ "id1" true 1
    rfl

/-- C7: from the Error state, the next successful snapshot callback returns
the controller to Ready and replaces the view in full with the sorted
snapshot; a store error merely moves the controller to Error (leaving the
view intact), so no error is fatal. -/
theorem error_state_recovers_on_next_snapshot (s : AppState) (snapshot : List Task)
    (h : s.ctrl = CtrlState.error) :
    (onStoreUpdate s snapshot).ctrl = CtrlState.ready ∧
    (onStoreUpdate s snapshot).view = sortTasks snapshot ∧
    (onStoreError s).ctrl = CtrlState.error ∧
    (onStoreError s).view = s.view ∧
    (onStoreUpdate (onStoreError s) snapshot).ctrl = CtrlState.ready :=
  ⟨rfl, rfl, rfl, rfl, rfl⟩

/-- Witness for C7 at a concrete state already in Error. -/
theorem error_state_recovers_on_next_snapshot_witness :
    (onStoreUpdate ⟨[], "", true, CtrlState.error, none⟩ []).ctrl = CtrlState.ready ∧
    (onStoreUpdate ⟨[], "", true, CtrlState.error, none⟩ []).view = sortTasks [] ∧
    (onStoreError ⟨[], "", true, CtrlState.error, none⟩).ctrl = CtrlState.error ∧
    (onStoreError ⟨[], "", true, CtrlState.error, none⟩).view
        = (⟨[], "", true, CtrlState.error, none⟩ : AppState).view ∧
    (onStoreUpdate (onStoreError ⟨[], "", true, CtrlState.error, none⟩) []).ctrl
        = CtrlState.ready :=
  error_state_recovers_on_next_snapshot ⟨[], "", true, CtrlState.error, none⟩ [] rfl

/-- C8: every create request issued by addTask carries a non-empty text, and
across two addTask calls made in order (the later one seeing a
`Date.now()` no smaller than the earlier one's) the createdAt timestamps
are monotone: the earlier payload's createdAt never exceeds the later's. -/
theorem createRequests_nonempty_text_monotone_createdAt
    (s₁ s₂ : AppState) (ok₁ ok₂ : Bool) (t₁ t₂ : Int) (hclock : t₁ ≤ t₂) :
    (∀ p ∈ (addTask s₁ ok₁ t₁).createRequests, p.text ≠ "") ∧
    (∀ p ∈ (addTask s₁ ok₁ t₁).createRequests,
      ∀ q ∈ (addTask s₂ ok₂ t₂).createRequests, p.createdAt ≤ q.createdAt) := by
  constructor
  · intro p hp
    obtain ⟨htext, -, hne⟩ := mem_addTask_createRequests s₁ ok₁ t₁ p hp
    rw [htext]
    exact hne
  · intro p hp q hq
    obtain ⟨-, hpt, -⟩ := mem_addTask_createRequests s₁ ok₁ t₁ p hp
    obtain ⟨-, hqt, -⟩ := mem_addTask_createRequests s₂ ok₂ t₂ q hq
    rw [hpt, hqt]
    exact hclock

/-- Witness for C8: two concrete successive creates at times 2 then 5. -/
theorem createRequests_nonempty_text_monotone_createdAt_witness :
    (∀ p ∈ (addTask ⟨[], "alpha", true, CtrlState.ready, none⟩ true 2).createRequests,
        p.text ≠ "") ∧
    (∀ p ∈ (addTask ⟨[], "alpha", true, CtrlState.ready, none⟩ true 2).createRequests,
      ∀ q ∈ (addTask ⟨[], "beta", true, CtrlState.ready, none⟩ true 5).createRequests,
        p.createdAt ≤ q.createdAt) :=
  createRequests_nonempty_text_monotone_createdAt
    ⟨[], "alpha", true, CtrlState.ready, none⟩ ⟨[], "beta", true, CtrlState.ready, none⟩
    true true 2 5 (by decide)

/-- C9: addTask clears the task input field exactly when the create
succeeded: on any other outcome (validation failure, unavailable store, or
rejected create) the field keeps its previous content, and on success it
becomes the empty string. -/
theorem input_cleared_only_on_success (s : AppState) (storeOk : Bool) (now : Int) :
    ((addTask s storeOk now).outcome = AddOutcome.created →
      (addTask s storeOk now).state.input = "") ∧
    ((addTask s storeOk now).outcome ≠ AddOutcome.created →
      (addTask s storeOk now).state.input = s.input) := by
  by_cases he : jsTrim s.input = "" <;> cases hdb : s.dbReady <;> cases storeOk <;>
    simp [addTask, he, hdb]

/-- Witness for C9: one successful create clears the field, one rejected
create keeps it. -/
theorem input_cleared_only_on_success_witness :
    (addTask ⟨[], " milk ", true, CtrlState.ready, none⟩ true 1).state.input = "" ∧
    (addTask ⟨[], " milk ", true, CtrlState.ready, none⟩ false 1).state.input = " milk " :=
  ⟨(input_cleared_only_on_success ⟨[], " milk ", true, CtrlState.ready, none⟩ true 1).1
      (by decide),
    (input_cleared_only_on_success ⟨[], " milk ", true, CtrlState.ready, none⟩ false 1).2
      (by decide)⟩

/-- C10: the view produced by the snapshot callback is a deterministic
function of the snapshot alone: two runs on equal snapshots yield the same
ordered view whatever each run's prior view held. -/
theorem snapshotView_deterministic (s₁ s₂ : AppState) (snapshot : List Task) :
    (onStoreUpdate s₁ snapshot).view = (onStoreUpdate s₂ snapshot).view := rfl

end TodoList
